import Mathlib

/-!
Verification of the EmoteMateApi emote ingestion pipeline.

The definitions below are shallow embeddings of the Python source:
machine-level concerns (HTTP, PIL, the Azure SDK, Redis) appear as
explicit environment records, bytes are lists of naturals, and fallible
calls return Option values (a returned none models a raised exception
caught at the call site).
-/

/-! ## Data model: image variants from the 7TV v4 API (seventv.py) -/

/-- One entry of the emote record field images, as consumed by
process_emote.  The url and mime keys are always present in the
upstream payload; scale and frameCount are read with dictionary
defaults, so they are kept optional here. -/
structure ImageVariant where
  url : String
  mime : String
  scale : Option Nat
  frameCount : Option Nat
deriving DecidableEq, Repr

/-- Value of the Python expression img.get "scale" 0 used in every
scale comparison of the selection block. -/
def scaleOf (img : ImageVariant) : Nat := img.scale.getD 0

/-- Value of the Python test img.get "frameCount" 1 > 1 that classifies
a variant as animated. -/
def variantAnimated (img : ImageVariant) : Bool := img.frameCount.getD 1 > 1

/-- Semantics of the Python builtin max with a key function: the first
element whose key is maximal (later elements replace the current best
only when strictly greater); none on the empty list, where max raises. -/
def pyMaxBy (f : ImageVariant → Nat) (l : List ImageVariant) : Option ImageVariant :=
  l.foldl
    (fun acc x =>
      match acc with
      | none => some x
      | some m => if f x > f m then some x else some m)
    none

/-- The mime preference loop of the third and fourth selection rules of
process_emote: for each mime in order, filter the pool and return the
Python max by scale of the first non-empty group. -/
def firstGroupMax (mimes : List String) (pool : List ImageVariant) : Option ImageVariant :=
  match mimes with
  | [] => none
  | m :: ms =>
    let candidates := pool.filter (fun img => img.mime == m)
    if candidates.isEmpty then firstGroupMax ms pool
    else pyMaxBy scaleOf candidates

/-- The pattern best_image = ... executed only when best_image is still
None: each later selection rule of process_emote runs under the guard
if not best_image. -/
def ifNoneYet (a b : Option ImageVariant) : Option ImageVariant :=
  match a with
  | some _ => a
  | none => b

/-- The best-variant selection block of process_emote
(seventv.py lines 162-204), translated statement by statement:
split into animated and static pools, then run the five prioritized
rules, each guarded by best_image still being None. -/
def selectBest (images : List ImageVariant) : Option ImageVariant :=
  let animated_images := images.filter (fun img => img.frameCount.getD 1 > 1)
  let static_images := images.filter (fun img => img.frameCount.getD 1 ≤ 1)
  let b1 := animated_images.find? (fun img => img.mime == "image/webp" && img.scale.getD 0 == 4)
  let b2 := ifNoneYet b1
    (if animated_images.isEmpty then none
     else
       let webp_animated := animated_images.filter (fun img => img.mime == "image/webp")
       if webp_animated.isEmpty then none else pyMaxBy scaleOf webp_animated)
  let b3 := ifNoneYet b2
    (if animated_images.isEmpty then none
     else firstGroupMax ["image/webp", "image/gif", "image/avif"] animated_images)
  let b4 := ifNoneYet b3
    (firstGroupMax ["image/webp", "image/png", "image/avif"] static_images)
  ifNoneYet b4 images.head?

/-- Candidate set of spec rule 1: animated, webp, scale exactly 4. -/
def specRule1 (images : List ImageVariant) : Option ImageVariant :=
  (images.filter (fun img =>
    variantAnimated img && (img.mime == "image/webp" && img.scale.getD 0 == 4))).head?

/-- Candidate set of spec rule 2: animated webp, any scale, max scale. -/
def specRule2 (images : List ImageVariant) : Option ImageVariant :=
  pyMaxBy scaleOf (images.filter (fun img => variantAnimated img && img.mime == "image/webp"))

/-- Spec rule 3: animated, mime in webp/gif/avif preference order, max
scale within the first non-empty mime group. -/
def specRule3 (images : List ImageVariant) : Option ImageVariant :=
  firstGroupMax ["image/webp", "image/gif", "image/avif"]
    (images.filter (fun img => variantAnimated img))

/-- Spec rule 4: static, mime in webp/png/avif preference order, max
scale within the first non-empty group. -/
def specRule4 (images : List ImageVariant) : Option ImageVariant :=
  firstGroupMax ["image/webp", "image/png", "image/avif"]
    (images.filter (fun img => !variantAnimated img))

/-- Modelled from the specification text of the AssetSelector (spec
section 4.1): the five candidate sets evaluated in strict priority
order, first non-empty set wins, falling back to the first variant in
input order; none only on empty input.  This definition follows the
words of the spec and is compared against selectBest, which follows
the code. -/
def selectBestSpec (images : List ImageVariant) : Option ImageVariant :=
  (specRule1 images).or
    ((specRule2 images).or
      ((specRule3 images).or
        ((specRule4 images).or images.head?)))

/-! ## Image transcoding (image_processing.py)

PIL is external: decoding, per-frame pixel work and the compressed
byte size of an encoding are fields of an environment record.  A WebP
byte string produced by the encoder is represented symbolically by the
arguments the code passes to PIL.Image.save, which is exactly what the
claims about transcoding talk about. -/

/-- One decoded frame; only its info dictionary entry duration is
relevant to the code under verification. -/
structure Frame where
  duration : Option Nat
deriving DecidableEq, Repr

/-- A decoded source image as seen through PIL: the is_animated flag,
the frame sequence, and the info entries duration and loop read with
dictionary defaults. -/
structure DecodedImage where
  is_animated : Bool
  frames : List Frame
  globalDuration : Option Nat
  loop : Option Nat
deriving DecidableEq, Repr

/-- External PIL operations used by resize_and_pad_webp_bytes: pixel
work per frame (convert RGBA, thumbnail, paste on the transparent
canvas), the same for the static path, and the compressed byte length
the encoder produces for given save arguments. -/
structure ImgEnv (Canvas : Type) where
  processFrame : Frame → Canvas
  processStatic : DecodedImage → Canvas
  sizeAnim : List Canvas → List Nat → Nat → Nat → Bool → Nat
  sizeStatic : Canvas → Nat → Bool → Nat

/-- Symbolic WebP output: the arguments handed to PIL.Image.save by
the two encoder helpers of image_processing.py. -/
inductive WebPBytes (Canvas : Type) where
  | anim (frames : List Canvas) (durations : List Nat) (loop : Nat)
      (quality : Nat) (lossless : Bool)
  | static (canvas : Canvas) (quality : Nat) (lossless : Bool)
deriving DecidableEq, Repr

/-- The helper encode_animated_webp of image_processing.py: save all
frames as one animated WebP with the given durations, loop count and
quality. -/
def encode_animated_webp {C : Type} (frames : List C) (durations : List Nat)
    (loop : Nat) (quality : Nat) (lossless : Bool) : WebPBytes C :=
  WebPBytes.anim frames durations loop quality lossless

/-- The helper encode_static_webp of image_processing.py. -/
def encode_static_webp {C : Type} (canvas : C) (quality : Nat) (lossless : Bool) :
    WebPBytes C :=
  WebPBytes.static canvas quality lossless

/-- Byte length of an encoding, i.e. len of the bytes PIL would
produce for these save arguments. -/
def byteLen {C : Type} (env : ImgEnv C) : WebPBytes C → Nat
  | WebPBytes.anim f d l q ll => env.sizeAnim f d l q ll
  | WebPBytes.static c q ll => env.sizeStatic c q ll

/-- The descending quality ladder the animated byte-budget loop tries. -/
def animQualities : List Nat := [80, 70, 60, 50, 40, 35, 30, 25, 20]

/-- The descending quality ladder the static byte-budget loop tries. -/
def staticQualities : List Nat := [95, 90, 85, 80, 70, 60, 50, 40]

/-- The byte-budget for-loop of resize_and_pad_webp_bytes: encode at
the current quality, return it if it fits the budget, otherwise move
to the next quality; when the ladder is exhausted the loop falls
through and the function returns the last encoding produced.  The
first quality is split from the rest so the recursion is structural;
call sites pass the head and tail of the source's literal list. -/
def searchQuality {C : Type} (enc : Nat → WebPBytes C) (size : WebPBytes C → Nat)
    (mb : Nat) (q : Nat) (qs : List Nat) : WebPBytes C :=
  let e := enc q
  if size e ≤ mb then e
  else
    match qs with
    | [] => e
    | q2 :: rest => searchQuality enc size mb q2 rest

/-- resize_and_pad_webp_bytes (image_processing.py lines 49-126) after
a successful decode: the animated path collects per-frame canvases,
durations with the per-frame/global/100ms fallback and the loop count,
then encodes once at quality 80 or runs the byte-budget ladder; the
static path pads a single canvas and encodes at quality 90 or runs its
own ladder. -/
def resize_and_pad_webp {C : Type} (env : ImgEnv C) (img : DecodedImage)
    (max_bytes : Option Nat) : WebPBytes C :=
  if img.is_animated && decide (img.frames.length > 1) then
    let frames := img.frames.map env.processFrame
    let durations := img.frames.map (fun fr => fr.duration.getD (img.globalDuration.getD 100))
    let loop := img.loop.getD 0
    match max_bytes with
    | none => encode_animated_webp frames durations loop 80 false
    | some mb =>
      searchQuality (fun q => encode_animated_webp frames durations loop q false)
        (byteLen env) mb 80 [70, 60, 50, 40, 35, 30, 25, 20]
  else
    let canvas := env.processStatic img
    match max_bytes with
    | none => encode_static_webp canvas 90 false
    | some mb =>
      searchQuality (fun q => encode_static_webp canvas q false)
        (byteLen env) mb 95 [90, 85, 80, 70, 60, 50, 40]

/-- The quality ladder the function uses for a given decoded input. -/
def qualitiesFor (img : DecodedImage) : List Nat :=
  if img.is_animated && decide (img.frames.length > 1) then animQualities
  else staticQualities

/-- The encoding the function would produce at one fixed quality, used
to state the byte-budget search property. -/
def encodeAt {C : Type} (env : ImgEnv C) (img : DecodedImage) (q : Nat) : WebPBytes C :=
  if img.is_animated && decide (img.frames.length > 1) then
    encode_animated_webp (img.frames.map env.processFrame)
      (img.frames.map (fun fr => fr.duration.getD (img.globalDuration.getD 100)))
      (img.loop.getD 0) q false
  else encode_static_webp (env.processStatic img) q false

/-- Executable check that a quality ladder is strictly descending. -/
def strictDesc : List Nat → Bool
  | [] => true
  | [_] => true
  | a :: b :: rest => (b < a) && strictDesc (b :: rest)

/-- Concrete pixel environment for evaluating the transcoder on
closed inputs: canvases carry no data and an encoding at quality q is
q + 1000 bytes long (so no quality step fits a tiny budget). -/
def unitPixEnv : ImgEnv Unit where
  processFrame := fun _ => ()
  processStatic := fun _ => ()
  sizeAnim := fun _ _ _ q _ => q + 1000
  sizeStatic := fun _ q _ => q + 1000

/-- Concrete two-frame animated source image: first frame carries its
own 40ms duration, the second falls back to the global 60ms; loop
count 3. -/
def imgAnim2 : DecodedImage where
  is_animated := true
  frames := [⟨some 40⟩, ⟨none⟩]
  globalDuration := some 60
  loop := some 3

/-! ## Per-emote ingestion (seventv.py process_emote, process_emotes_batch)

HTTP download, PIL decoding, the Unicode isalnum predicate and the
upload into Azure are external calls of process_emote; they become
fields of an environment record.  A call that can raise is modelled by
an Option result, the none being the exception the surrounding Python
try blocks catch. -/

/-- One upstream emote record as read by process_emote: the id key is
accessed directly, defaultName and the nested owner display name are
read with dictionary defaults, images is the variant list. -/
structure EmoteRecord where
  id : String
  defaultName : Option String
  owner : Option String
  images : List ImageVariant
deriving DecidableEq, Repr

/-- The dictionary process_emote returns on success. -/
structure ProcessedEmote where
  fileName : String
  url : String
  emoteId : String
  emoteName : String
  owner : String
  animated : Bool
  scale : Nat
  mime : String
deriving DecidableEq, Repr

/-- External collaborators of process_emote: the Unicode isalnum
predicate used by the name sanitizer, requests.get (none is a raised
network exception, otherwise status code and body bytes), PIL decoding
of downloaded bytes, the pixel environment of the transcoder, the
serialized bytes of a saved WebP, and upload_to_azure_blob taking
content, blob name and content type and returning the blob URL or
None. -/
structure SevenTvEnv (C : Type) where
  isAlnum : Char → Bool
  fetch : String → Option (Nat × List Nat)
  decode : List Nat → Option DecodedImage
  pixel : ImgEnv C
  serialize : WebPBytes C → List Nat
  upload : List Nat → String → String → Option String

/-- The extension mapping of process_emote: a dictionary lookup on the
mime type with default ".png". -/
def extFor (mime : String) : String :=
  if mime == "image/webp" then ".webp"
  else if mime == "image/gif" then ".gif"
  else if mime == "image/avif" then ".avif"
  else if mime == "image/png" then ".png"
  else ".png"

/-- The safe_name comprehension of process_emote: keep alphanumerics
and the characters dot, underscore, hyphen and space, replace every
other character by an underscore. -/
def sanitizeName (alnum : Char → Bool) (name : String) : String :=
  String.mk (name.data.map (fun c =>
    if alnum c || (c == '.' || c == '_' || c == '-' || c == ' ') then c else '_'))

/-- resize_and_pad_webp_bytes as seen from its caller: decode the
downloaded bytes (a failure is the raised decode error) and serialize
the resized, re-encoded WebP. -/
def resize_and_pad_webp_bytes {C : Type} (env : SevenTvEnv C) (image_bytes : List Nat)
    (max_bytes : Option Nat) : Option (List Nat) :=
  match env.decode image_bytes with
  | none => none
  | some img => some (env.serialize (resize_and_pad_webp env.pixel img max_bytes))

/-- process_emote (seventv.py lines 154-250): select the best variant,
download it, transcode animated webp content on a 512x512 canvas
keeping the original bytes when the transcoder raises, build the
sanitized blob name, upload, and return the result dictionary; every
failure path returns None (the enclosing try swallows exceptions). -/
def process_emote {C : Type} (env : SevenTvEnv C) (emote : EmoteRecord)
    (folder : String) : Option ProcessedEmote :=
  match selectBest emote.images with
  | none => none
  | some best =>
    match env.fetch best.url with
    | none => none
    | some (status, content) =>
      if status ≠ 200 then none
      else
        let processed_content :=
          if best.mime == "image/webp" && best.frameCount.getD 1 > 1 then
            match resize_and_pad_webp_bytes env content none with
            | some b => b
            | none => content
          else content
        let file_name := sanitizeName env.isAlnum (emote.defaultName.getD "emote") ++
          extFor best.mime
        let blob_name := folder ++ "/" ++ file_name
        match env.upload processed_content blob_name best.mime with
        | none => none
        | some blob_url =>
          if blob_url = "" then none
          else some
            { fileName := file_name
              url := blob_url
              emoteId := emote.id
              emoteName := emote.defaultName.getD ""
              owner := emote.owner.getD ""
              animated := best.frameCount.getD 1 > 1
              scale := best.scale.getD 1
              mime := best.mime }

/-- process_emotes_batch (seventv.py lines 252-258): map process_emote
over the batch and keep the truthy results.  The thread pool only
affects scheduling; the collected results list is the map of the
per-record function. -/
def process_emotes_batch {C : Type} (env : SevenTvEnv C) (emotes : List EmoteRecord)
    (folder : String) : List ProcessedEmote :=
  let results := emotes.map (fun e => process_emote env e folder)
  results.filterMap (fun r => r)

/-- Concrete batch environment: one URL answers 404, two URLs answer
200, uploads always succeed with a URL derived from the blob name. -/
def batchEnv : SevenTvEnv Unit where
  isAlnum := fun c => c.isAlphanum
  fetch := fun url =>
    if url == "https://cdn.7tv.app/bad" then some (404, [0])
    else if url == "https://cdn.7tv.app/ok1" then some (200, [1, 2])
    else if url == "https://cdn.7tv.app/ok2" then some (200, [3, 4])
    else none
  decode := fun _ => none
  pixel := unitPixEnv
  serialize := fun _ => []
  upload := fun _ name _ => some (String.append "https://blobstore.example/" name)

/-- Record whose download fails with HTTP 404. -/
def emoteFail : EmoteRecord :=
  ⟨"id0", some "Bad", none, [⟨"https://cdn.7tv.app/bad", "image/png", some 2, some 1⟩]⟩

/-- Record that ingests successfully. -/
def emoteOk1 : EmoteRecord :=
  ⟨"id1", some "GoodOne", some "alice",
    [⟨"https://cdn.7tv.app/ok1", "image/png", some 4, some 1⟩]⟩

/-- Second record that ingests successfully. -/
def emoteOk2 : EmoteRecord :=
  ⟨"id2", some "GoodTwo", none,
    [⟨"https://cdn.7tv.app/ok2", "image/webp", some 4, some 1⟩]⟩

/-- Environment whose PIL decode always raises, with a downloadable
animated webp at one URL and working uploads: exercises the
decode-error path of process_emote. -/
def decodeFailEnv : SevenTvEnv Unit where
  isAlnum := fun c => c.isAlphanum
  fetch := fun url =>
    if url == "https://cdn.7tv.app/anim" then some (200, [9, 9]) else none
  decode := fun _ => none
  pixel := unitPixEnv
  serialize := fun _ => []
  upload := fun _ name _ => some (String.append "https://blobstore.example/" name)

/-- Record whose only variant is an animated webp at scale 4, with
undecodable bytes behind its URL in decodeFailEnv. -/
def emoteAnimWebp : EmoteRecord :=
  ⟨"id9", some "Spin", none,
    [⟨"https://cdn.7tv.app/anim", "image/webp", some 4, some 2⟩]⟩

/-! ## Azure blob storage (app/services/storage.py)

The Azure SDK is external; the backing container is a name-to-content
map together with the availability flag that azure_storage_available
computes, and blob_client.url is an environment function of the blob
name. -/

/-- The Azure SDK pieces fixed per container: the URL a blob client
reports for a given blob name. -/
structure AzureEnv where
  urlOf : String → String

/-- State of the storage service module: whether the clients are
configured and reachable, and the stored blobs (name, content bytes
and content type). -/
structure AzureState where
  available : Bool
  blobs : List (String × (List Nat × Option String))
deriving Repr

/-- upload_to_azure_blob (storage.py lines 40-73): when storage is
unavailable, log and return None; otherwise return the existing blob
URL if the name is present, else write the blob and return its URL.
The result pairs the returned value with the post-call store state. -/
def upload_to_azure_blob (env : AzureEnv) (st : AzureState) (file_data : List Nat)
    (blob_name : String) (content_type : Option String) : Option String × AzureState :=
  if st.available = false then (none, st)
  else if (st.blobs.lookup blob_name).isSome then (some (env.urlOf blob_name), st)
  else (some (env.urlOf blob_name),
    ⟨st.available, (blob_name, (file_data, content_type)) :: st.blobs⟩)

/-- get_blob_url_if_exists (storage.py lines 76-88). -/
def get_blob_url_if_exists (env : AzureEnv) (st : AzureState) (blob_name : String) :
    Option String :=
  if st.available = false then none
  else if (st.blobs.lookup blob_name).isSome then some (env.urlOf blob_name)
  else none

/-- list_blobs_with_prefix (storage.py lines 90-101): empty list when
storage is unavailable, otherwise the names of the stored blobs whose
name starts with the given prefix. -/
def list_blobs_with_prefix (st : AzureState) (pre : String) : List String :=
  if st.available = false then []
  else (st.blobs.map (fun b => b.1)).filter (fun n => pre.data.isPrefixOf n.data)

/-- Concrete container environment. -/
def azureUrlEnv : AzureEnv :=
  ⟨fun n => String.append "https://storage.example/container/" n⟩

/-- Unavailable storage state that nevertheless has a blob in the
backing container: exercises the degraded branches. -/
def unavailableState : AzureState :=
  ⟨false, [("emote_api/a.webp", ([7], some "image/webp"))]⟩

/-! ## Cache keys (app/services/cache.py)

The key strings are built by f-string interpolation; the integer and
boolean renderings of Python are embedded explicitly so the keys are
computable and their collision behaviour provable. -/

/-- The decimal digit character of a value below ten. -/
def digitChar (d : Nat) : Char := Char.ofNat (48 + d)

/-- Decimal digit characters of a natural number, most significant
first, with explicit fuel (any fuel above the value itself is enough). -/
def natCharsAux : Nat → Nat → List Char
  | 0, _ => []
  | fuel + 1, n =>
    if n < 10 then [digitChar n]
    else natCharsAux fuel (n / 10) ++ [digitChar (n % 10)]

/-- Python str of a non-negative int as used by f-string formatting. -/
def pyStr (n : Nat) : String := String.mk (natCharsAux (n + 1) n)

/-- Python str of a bool as used by f-string formatting. -/
def pyStrBool (b : Bool) : String := if b then "True" else "False"

/-- Decimal decoding, the left inverse of the digit rendering. -/
def decodeDigits (l : List Char) : Nat :=
  l.foldl (fun a c => 10 * a + (c.toNat - 48)) 0

/-- get_cache_key (app/services/cache.py lines 26-28): the search
fingerprint over query, limit, animated flag and page. -/
def get_cache_key (query : String) (limit : Nat) (animated_only : Bool)
    (page : Nat) : String :=
  "emote_search:" ++ query ++ ":" ++ pyStr limit ++ ":" ++ pyStrBool animated_only ++
    ":" ++ pyStr page

/-- get_trending_cache_key (app/services/cache.py lines 30-32): the
trending fingerprint additionally carrying the trending period. -/
def get_trending_cache_key (period : String) (limit : Nat) (animated_only : Bool)
    (page : Nat) : String :=
  "trending:" ++ period ++ ":" ++ pyStr limit ++ ":" ++ pyStrBool animated_only ++
    ":" ++ pyStr page

/-! ## Storage listing endpoints (app/api/routes/storage.py)

The two endpoints differ only in folder prefix and empty-listing
message; the shared body is embedded once and instantiated twice.
Python str.replace, str.endswith and os.path.splitext are embedded on
character lists; hash() is salted per process and stays an environment
function. -/

/-- Python str.replace on character lists: replace every
non-overlapping occurrence of pat, scanning left to right.  The fuel
is the length of the scanned list, which bounds the recursion. -/
def replaceAux (pat rep : List Char) : Nat → List Char → List Char
  | _, [] => []
  | 0, l => l
  | fuel + 1, c :: cs =>
    if pat.isPrefixOf (c :: cs) then
      rep ++ replaceAux pat rep fuel (List.drop (pat.length - 1) cs)
    else c :: replaceAux pat rep fuel cs

/-- Python str.replace(old, new). -/
def pyReplace (s old new : String) : String :=
  String.mk (replaceAux old.data new.data s.data.length s.data)

/-- Python str.endswith("/"). -/
def endsWithSlash (s : String) : Bool := s.data.getLast? == some '/'

/-- Index of the last occurrence of a character. -/
def lastIndexOf (c : Char) (l : List Char) : Option Nat :=
  match l.reverse.findIdx? (fun x => x == c) with
  | none => none
  | some k => some (l.length - 1 - k)

/-- The root part of os.path.splitext on a posix path: split at the
last dot when it lies after the last slash and the basename has a
non-dot character before it, else return the path unchanged. -/
def pySplitextRoot (p : List Char) : List Char :=
  match lastIndexOf '.' p with
  | none => p
  | some d =>
    let s :=
      match lastIndexOf '/' p with
      | none => 0
      | some si => si + 1
    if d < s then p
    else if (List.range (d - s)).any (fun k => !(p.getD (s + k) ' ' == '.')) then p.take d
    else p

/-- One entry of the emotes array the storage endpoints return. -/
structure StorageEmote where
  fileName : String
  url : String
  emoteId : String
  emoteName : String
deriving DecidableEq, Repr

/-- The SearchResponse fields the storage endpoints populate
(processingTime, a wall-clock float, is outside the embedding). -/
structure StorageResponse where
  success : Bool
  totalFound : Nat
  emotes : List StorageEmote
  message : Option String
  page : Nat
  totalPages : Nat
  resultsPerPage : Nat
  hasNextPage : Bool
deriving DecidableEq, Repr

/-- External functions of the endpoint body: blob_client.url and the
process-salted Python hash used for the pseudo id. -/
structure RouteEnv where
  urlOf : String → String
  pyHash : String → Nat

/-- Lexicographic comparison of code point sequences, the order
Python uses when sorting the blob names. -/
def charListLe : List Char → List Char → Bool
  | [], _ => true
  | _ :: _, [] => false
  | a :: as, b :: bs =>
    if a.toNat < b.toNat then true
    else if b.toNat < a.toNat then false
    else charListLe as bs

/-- String comparison by code points. -/
def strLe (a b : String) : Bool := charListLe a.data b.data

/-- The blob listing sorted by name, as the endpoints prepare it. -/
def sortedListing (st : AzureState) (pre : String) : List String :=
  List.insertionSort (fun a b => strLe a b = true) ( list_blobs_with_prefix st pre)

/-- The per-blob loop body of the endpoints: strip the folder prefix,
skip empty names and folder placeholders, build the entry with the
blob URL, the hashed pseudo id and the extension-less emote name. -/
def blobEntry (env : RouteEnv) (pre : String) (bname : String) : Option StorageEmote :=
  let file_name := pyReplace bname pre ""
  if (file_name == "") || endsWithSlash file_name then none
  else some
    { fileName := file_name
      url := env.urlOf bname
      emoteId := "storage_" ++ pyStr (env.pyHash bname % 10000000)
      emoteName := String.mk (pySplitextRoot file_name.data) }

/-- Shared body of get_emotes_from_storage and
get_trending_emotes_from_storage (app/api/routes/storage.py): check
availability, list and sort the folder, compute pagination over the
full listing, reject pages past the end, then build entries from the
sliced page while skipping folder placeholders. -/
def storage_listing_page (env : RouteEnv) (st : AzureState) (pre : String)
    (emptyMsg : String) (page limit : Nat) : StorageResponse :=
  if st.available = false then
    ⟨false, 0, [], some "Azure Storage is not properly configured or unavailable",
      page, 0, limit, false⟩
  else
    let blob_list := sortedListing st pre
    if blob_list.isEmpty then ⟨true, 0, [], some emptyMsg, page, 0, limit, false⟩
    else
      let total_found := blob_list.length
      let total_pages := (total_found + limit - 1) / limit
      let start_idx := (page - 1) * limit
      let end_idx := min (start_idx + limit) total_found
      if total_found ≤ start_idx then
        ⟨false, total_found, [], some "Page exceeds available pages", page,
          total_pages, limit, false⟩
      else
        let page_blobs := (blob_list.drop start_idx).take (end_idx - start_idx)
        ⟨true, total_found, page_blobs.filterMap (blobEntry env pre), none, page,
          total_pages, limit, decide (page < total_pages)⟩

/-- get_emotes_from_storage (app/api/routes/storage.py lines 143-270). -/
def get_emotes_from_storage (env : RouteEnv) (st : AzureState) (page limit : Nat) :
    StorageResponse :=
  storage_listing_page env st "emote_api/" "No emotes found in storage" page limit

/-- get_trending_emotes_from_storage (app/api/routes/storage.py lines
13-141). -/
def get_trending_emotes_from_storage (env : RouteEnv) (st : AzureState)
    (page limit : Nat) : StorageResponse :=
  storage_listing_page env st "trending_emotes/" "No trending emotes found in storage"
    page limit

/-- Concrete route environment with an unsalted hash stand-in. -/
def routeEnv : RouteEnv :=
  ⟨fun n => String.append "https://storage.example/container/" n, fun _ => 0⟩

/-- Two-digit zero-padded rendering used to build sortable names. -/
def pad2 (n : Nat) : String := if n < 10 then "0" ++ pyStr n else pyStr n

/-- Forty-five blob names e01.webp to e45.webp under emote_api/. -/
def names45 : List String :=
  (List.range 45).map (fun k => "emote_api/e" ++ pad2 (k + 1) ++ ".webp")

/-- Available storage state holding the forty-five blobs. -/
def st45 : AzureState := ⟨true, names45.map (fun n => (n, ([], none)))⟩

/-- Listing in which one name is the bare folder placeholder
emote_api/ that the entry builder filters out. -/
def stPlaceholder : AzureState :=
  ⟨true, [("emote_api/", ([], none)), ("emote_api/a.webp", ([], none)),
    ("emote_api/b.webp", ([], none))]⟩

/-- Trending-folder variant of the placeholder listing. -/
def stPlaceholderTrending : AzureState :=
  ⟨true, [("trending_emotes/", ([], none)), ("trending_emotes/a.webp", ([], none)),
    ("trending_emotes/b.webp", ([], none))]⟩

theorem pyMaxFold_some_isSome (f : ImageVariant → Nat) (t : List ImageVariant)
    (m : ImageVariant) :
    (List.foldl
      (fun acc x =>
        match acc with
        | none => some x
        | some m => if f x > f m then some x else some m)
      (some m) t).isSome := by
  induction t generalizing m with
  | nil => rfl
  | cons b t ih =>
    simp only [List.foldl_cons]
    split <;> exact ih _

theorem pyMaxBy_isSome_of_ne_nil (f : ImageVariant → Nat) (l : List ImageVariant)
    (h : l ≠ []) : (pyMaxBy f l).isSome := by
  cases l with
  | nil => exact absurd rfl h
  | cons a t =>
    unfold pyMaxBy
    simp only [List.foldl_cons]
    exact pyMaxFold_some_isSome f t a

theorem pyMaxBy_nil (f : ImageVariant → Nat) : pyMaxBy f [] = none := rfl

theorem ifNoneYet_eq_or (a b : Option ImageVariant) : ifNoneYet a b = a.or b := by
  cases a <;> rfl

theorem find?_filter_eq_head? {α : Type} (p q : α → Bool) (l : List α) :
    (l.filter q).find? p = (l.filter (fun x => q x && p x)).head? := by
  induction l with
  | nil => rfl
  | cons a t ih =>
    by_cases hq : q a
    · by_cases hp : p a <;> simp [List.filter_cons, hq, hp, List.find?, ih]
    · simp [List.filter_cons, hq, ih]

theorem filter_filter_eq {α : Type} (p q : α → Bool) (l : List α) :
    (l.filter q).filter p = l.filter (fun x => q x && p x) := by
  induction l with
  | nil => rfl
  | cons a t ih =>
    by_cases hq : q a
    · by_cases hp : p a <;> simp [List.filter_cons, hq, hp, ih]
    · simp [List.filter_cons, hq, ih]

theorem firstGroupMax_nil (mimes : List String) : firstGroupMax mimes [] = none := by
  induction mimes with
  | nil => rfl
  | cons m ms ih => simp [firstGroupMax, ih]

theorem specRule2_eq (images : List ImageVariant) :
    specRule2 images =
      (if (images.filter (fun img => img.frameCount.getD 1 > 1)).isEmpty then none
       else
         if ((images.filter (fun img => img.frameCount.getD 1 > 1)).filter
              (fun img => img.mime == "image/webp")).isEmpty then none
         else pyMaxBy scaleOf
           ((images.filter (fun img => img.frameCount.getD 1 > 1)).filter
             (fun img => img.mime == "image/webp"))) := by
  unfold specRule2
  rw [show (images.filter (fun img => variantAnimated img && img.mime == "image/webp")) =
      ((images.filter (fun img => img.frameCount.getD 1 > 1)).filter
        (fun img => img.mime == "image/webp")) by
      rw [filter_filter_eq]
      rfl]
  by_cases hA : (images.filter (fun img => img.frameCount.getD 1 > 1)).isEmpty
  · rw [if_pos hA, List.isEmpty_iff.mp hA]
    rfl
  · rw [if_neg hA]
    by_cases hW : ((images.filter (fun img => img.frameCount.getD 1 > 1)).filter
        (fun img => img.mime == "image/webp")).isEmpty
    · rw [if_pos hW, List.isEmpty_iff.mp hW]
      rfl
    · rw [if_neg hW]

theorem specRule3_eq (images : List ImageVariant) :
    specRule3 images =
      (if (images.filter (fun img => img.frameCount.getD 1 > 1)).isEmpty then none
       else firstGroupMax ["image/webp", "image/gif", "image/avif"]
         (images.filter (fun img => img.frameCount.getD 1 > 1))) := by
  unfold specRule3 variantAnimated
  by_cases hA : (images.filter (fun img => img.frameCount.getD 1 > 1)).isEmpty
  · rw [List.isEmpty_iff] at hA
    simp [hA, firstGroupMax_nil]
  · simp [hA]

theorem specRule4_eq (images : List ImageVariant) :
    specRule4 images =
      firstGroupMax ["image/webp", "image/png", "image/avif"]
        (images.filter (fun img => img.frameCount.getD 1 ≤ 1)) := by
  unfold specRule4
  congr 1
  apply List.filter_congr
  intro x _
  unfold variantAnimated
  rcases Nat.lt_or_ge 1 (x.frameCount.getD 1) with h | h
  · simp [h, Nat.not_le.mpr h]
  · simp [Nat.not_lt.mpr h, Nat.le_of_lt_succ (Nat.lt_succ_of_le h)]

theorem specRule1_eq (images : List ImageVariant) :
    specRule1 images =
      (images.filter (fun img => img.frameCount.getD 1 > 1)).find?
        (fun img => img.mime == "image/webp" && img.scale.getD 0 == 4) := by
  unfold specRule1 variantAnimated
  rw [find?_filter_eq_head?]

theorem ifNoneYet_isSome_right (a b : Option ImageVariant) (h : b.isSome) :
    (ifNoneYet a b).isSome := by
  cases a <;> simp [ifNoneYet, h]

theorem selectBest_isSome_of_ne_nil (images : List ImageVariant) (h : images ≠ []) :
    (selectBest images).isSome := by
  unfold selectBest
  apply ifNoneYet_isSome_right
  cases images with
  | nil => exact absurd rfl h
  | cons a t => rfl

/-- C1: the selection step of process_emote agrees with the spec's
five-rule priority policy (rule 1 animated webp at scale 4, rule 2
animated webp at max scale, rule 3 animated in webp/gif/avif order at
max scale within the first non-empty mime group, rule 4 static in
webp/png/avif order likewise, rule 5 first variant in input order),
the first rule with a non-empty candidate set winning, and it returns
none exactly on the empty variant list. -/
theorem c1_selection_policy (images : List ImageVariant) :
    selectBest images = selectBestSpec images ∧
      (selectBest images = none ↔ images = []) := by
  constructor
  · unfold selectBestSpec
    rw [specRule1_eq, specRule2_eq, specRule3_eq, specRule4_eq]
    unfold selectBest
    simp only [ifNoneYet_eq_or, Option.or_assoc]
  · constructor
    · intro h
      by_contra hne
      have hs := selectBest_isSome_of_ne_nil images hne
      rw [h] at hs
      exact Bool.noConfusion hs
    · intro h
      subst h
      rfl

/-- Witness for c1_selection_policy at a concrete input: the spec's own
rule-1 example list, on which both definitions pick the animated webp
at scale 4 and the result is not none. -/
theorem c1_selection_policy_witness :
    selectBest
        [⟨"u1", "image/webp", some 4, some 2⟩,
         ⟨"u2", "image/webp", some 2, some 2⟩,
         ⟨"u3", "image/gif", some 4, some 2⟩] =
      some ⟨"u1", "image/webp", some 4, some 2⟩ ∧
    selectBest [] = none := by
  exact ⟨by decide, (c1_selection_policy []).2.mpr rfl⟩

theorem searchQuality_eq {C : Type} (enc : Nat → WebPBytes C) (size : WebPBytes C → Nat)
    (mb : Nat) (q : Nat) (qs : List Nat) :
    searchQuality enc size mb q qs =
      (match (q :: qs).find? (fun x => size (enc x) ≤ mb) with
       | some x => enc x
       | none => enc (qs.getLastD q)) := by
  induction qs generalizing q with
  | nil =>
    unfold searchQuality
    by_cases h : size (enc q) ≤ mb <;> simp [List.find?_cons, h]
  | cons q2 rest ih =>
    unfold searchQuality
    by_cases h : size (enc q) ≤ mb
    · simp [List.find?_cons, h]
    · simp only [h, if_false]
      rw [ih q2]
      rw [show List.find? (fun x => decide (size (enc x) ≤ mb)) (q :: q2 :: rest) =
          List.find? (fun x => decide (size (enc x) ≤ mb)) (q2 :: rest) from
        List.find?_cons_of_neg _ (by simp [h])]
      rw [List.getLastD_cons]

theorem searchQuality_exists_quality {C : Type} (enc : Nat → WebPBytes C)
    (size : WebPBytes C → Nat) (mb : Nat) (q : Nat) (qs : List Nat) :
    ∃ x, searchQuality enc size mb q qs = enc x := by
  rw [searchQuality_eq]
  cases h : (q :: qs).find? (fun x => size (enc x) ≤ mb) with
  | none => exact ⟨qs.getLastD q, by simp [h]⟩
  | some x => exact ⟨x, by simp [h]⟩

/-- C3: with a byte budget, resize_and_pad_webp_bytes walks a fixed
descending quality ladder (a distinct, coarser one for animated input
than for static input), returns the first encoding whose byte length
fits the budget, and when none fits it still returns the encoding at
the lowest quality of the ladder, which under a size function
antitone in quality is the smallest of all attempted encodings. -/
theorem c3_byte_budget_search {C : Type} (env : ImgEnv C) (img : DecodedImage) (mb : Nat) :
    (resize_and_pad_webp env img (some mb) =
      (match (qualitiesFor img).find?
          (fun q => byteLen env (encodeAt env img q) ≤ mb) with
       | some q => encodeAt env img q
       | none => encodeAt env img ((qualitiesFor img).getLastD 0))) ∧
    ((∀ q ∈ qualitiesFor img, mb < byteLen env (encodeAt env img q)) →
      (∀ q1 ∈ qualitiesFor img, ∀ q2 ∈ qualitiesFor img, q1 ≤ q2 →
        byteLen env (encodeAt env img q1) ≤ byteLen env (encodeAt env img q2)) →
      ∀ q ∈ qualitiesFor img,
        byteLen env (resize_and_pad_webp env img (some mb)) ≤
          byteLen env (encodeAt env img q)) ∧
    strictDesc animQualities = true ∧
    strictDesc staticQualities = true ∧
    animQualities ≠ staticQualities := by
  have hquals : qualitiesFor img = animQualities ∨ qualitiesFor img = staticQualities := by
    unfold qualitiesFor
    by_cases hA : (img.is_animated && decide (img.frames.length > 1)) = true
    · exact Or.inl (if_pos hA)
    · exact Or.inr (if_neg hA)
  have hmain : resize_and_pad_webp env img (some mb) =
      (match (qualitiesFor img).find?
          (fun q => byteLen env (encodeAt env img q) ≤ mb) with
       | some q => encodeAt env img q
       | none => encodeAt env img ((qualitiesFor img).getLastD 0)) := by
    by_cases hA : (img.is_animated && decide (img.frames.length > 1)) = true
    · have hr : resize_and_pad_webp env img (some mb) =
          searchQuality (fun q => encode_animated_webp (img.frames.map env.processFrame)
              (img.frames.map (fun fr => fr.duration.getD (img.globalDuration.getD 100)))
              (img.loop.getD 0) q false)
            (byteLen env) mb 80 [70, 60, 50, 40, 35, 30, 25, 20] := by
        simp only [resize_and_pad_webp, hA, if_true]
      have hq : qualitiesFor img = animQualities := if_pos hA
      have he : ∀ x, encodeAt env img x = encode_animated_webp
          (img.frames.map env.processFrame)
          (img.frames.map (fun fr => fr.duration.getD (img.globalDuration.getD 100)))
          (img.loop.getD 0) x false := fun x => by simp only [encodeAt, hA, if_true]
      rw [hr, searchQuality_eq, hq]
      simp only [he, animQualities]
      rfl
    · rw [Bool.not_eq_true] at hA
      have hq : qualitiesFor img = staticQualities := by
        simp only [qualitiesFor, hA, Bool.false_eq_true, if_false]
      have hr : resize_and_pad_webp env img (some mb) =
          searchQuality (fun q => encode_static_webp (env.processStatic img) q false)
            (byteLen env) mb 95 [90, 85, 80, 70, 60, 50, 40] := by
        simp only [resize_and_pad_webp, hA, Bool.false_eq_true, if_false]
      have he : ∀ x, encodeAt env img x =
          encode_static_webp (env.processStatic img) x false :=
        fun x => by simp only [encodeAt, hA, Bool.false_eq_true, if_false]
      rw [hr, searchQuality_eq, hq]
      simp only [he, staticQualities]
      rfl
  refine ⟨hmain, ?_, by decide, by decide, by decide⟩
  intro hall hanti q hq
  have hfind : (qualitiesFor img).find?
      (fun q => byteLen env (encodeAt env img q) ≤ mb) = none := by
    apply List.find?_eq_none.mpr
    intro x hx
    simpa using Nat.not_le.mpr (hall x hx)
  rw [hmain, hfind]
  rcases hquals with hh | hh
  · exact hanti _ (by rw [hh]; decide) q hq
      (by
        rw [hh] at hq ⊢
        exact (by decide : ∀ x ∈ animQualities, animQualities.getLastD 0 ≤ x) q hq)
  · exact hanti _ (by rw [hh]; decide) q hq
      (by
        rw [hh] at hq ⊢
        exact (by decide : ∀ x ∈ staticQualities, staticQualities.getLastD 0 ≤ x) q hq)

/-- Witness for c3_byte_budget_search: with every encoding larger than
the 5-byte budget and sizes antitone in quality, the returned encoding
is no larger than the quality-80 attempt. -/
theorem c3_byte_budget_search_witness :
    byteLen unitPixEnv (resize_and_pad_webp unitPixEnv imgAnim2 (some 5)) ≤
      byteLen unitPixEnv (encodeAt unitPixEnv imgAnim2 80) :=
  (c3_byte_budget_search unitPixEnv imgAnim2 5).2.1 (by decide) (by decide) 80 (by decide)

/-- C8: on animated input the transcoder re-encodes exactly the source
frame count, gives each output frame its source frame duration with
fallback to the global duration and then 100ms, and preserves the
source loop count with default 0. -/
theorem c8_animated_durations {C : Type} (env : ImgEnv C) (img : DecodedImage)
    (mb : Option Nat) (h1 : img.is_animated = true) (h2 : 1 < img.frames.length) :
    ∃ q, resize_and_pad_webp env img mb =
        WebPBytes.anim (img.frames.map env.processFrame)
          (img.frames.map (fun fr => fr.duration.getD (img.globalDuration.getD 100)))
          (img.loop.getD 0) q false ∧
      (img.frames.map env.processFrame).length = img.frames.length := by
  have hA : (img.is_animated && decide (img.frames.length > 1)) = true := by
    simp [h1, h2]
  cases mb with
  | none =>
    refine ⟨80, ?_, img.frames.length_map env.processFrame⟩
    simp [resize_and_pad_webp, hA, encode_animated_webp]
  | some b =>
    obtain ⟨x, hx⟩ := searchQuality_exists_quality
      (fun q => encode_animated_webp (img.frames.map env.processFrame)
        (img.frames.map (fun fr => fr.duration.getD (img.globalDuration.getD 100)))
        (img.loop.getD 0) q false)
      (byteLen env) b 80 [70, 60, 50, 40, 35, 30, 25, 20]
    refine ⟨x, ?_, img.frames.length_map env.processFrame⟩
    simp only [resize_and_pad_webp, hA, if_true]
    rw [hx]
    rfl

/-- Witness for c8_animated_durations on the concrete two-frame image:
the output animation keeps two frames, durations 40ms and 60ms and
loop count 3. -/
theorem c8_animated_durations_witness :
    ∃ q, resize_and_pad_webp unitPixEnv imgAnim2 none =
        WebPBytes.anim (imgAnim2.frames.map unitPixEnv.processFrame)
          (imgAnim2.frames.map (fun fr => fr.duration.getD (imgAnim2.globalDuration.getD 100)))
          (imgAnim2.loop.getD 0) q false ∧
      (imgAnim2.frames.map unitPixEnv.processFrame).length = imgAnim2.frames.length :=
  c8_animated_durations unitPixEnv imgAnim2 none rfl (by decide)

theorem length_filterMap_eq_countP {α β : Type} (f : α → Option β) (l : List α) :
    (l.filterMap f).length = l.countP (fun a => (f a).isSome) := by
  induction l with
  | nil => rfl
  | cons a t ih =>
    cases h : f a <;> simp [List.filterMap_cons, h, List.countP_cons, ih]

/-- C2: process_emotes_batch is total and returns exactly the records
process_emote succeeded on, in batch order: it is the filterMap of the
per-record function, every returned entry comes from some input
record, the result length counts the successful records, and on the
concrete batch of one record with a failing download plus two records
that succeed it returns exactly those two entries. -/
theorem c2_batch_partial_failure {C : Type} (env : SevenTvEnv C)
    (emotes : List EmoteRecord) (folder : String) :
    process_emotes_batch env emotes folder =
      emotes.filterMap (fun e => process_emote env e folder) ∧
    (∀ r ∈ process_emotes_batch env emotes folder,
      ∃ e ∈ emotes, process_emote env e folder = some r) ∧
    (process_emotes_batch env emotes folder).length =
      (emotes.map (fun e => process_emote env e folder)).countP Option.isSome ∧
    process_emote batchEnv emoteFail "emote_api" = none ∧
    process_emotes_batch batchEnv [emoteFail, emoteOk1, emoteOk2] "emote_api" =
      [⟨"GoodOne.png", "https://blobstore.example/emote_api/GoodOne.png", "id1",
          "GoodOne", "alice", false, 4, "image/png"⟩,
        ⟨"GoodTwo.webp", "https://blobstore.example/emote_api/GoodTwo.webp", "id2",
          "GoodTwo", "", false, 4, "image/webp"⟩] := by
  have hfm : process_emotes_batch env emotes folder =
      emotes.filterMap (fun e => process_emote env e folder) := by
    unfold process_emotes_batch
    induction emotes with
    | nil => rfl
    | cons e t ih => simp [List.filterMap_cons, ih]
  refine ⟨hfm, ?_, ?_, by decide, by decide⟩
  · intro r hr
    rw [hfm] at hr
    obtain ⟨e, he, hpe⟩ := List.mem_filterMap.mp hr
    exact ⟨e, he, hpe⟩
  · rw [hfm, length_filterMap_eq_countP, List.countP_map]
    rfl

/-- C6 counterexample: a record whose selected variant is an animated
webp with undecodable downloaded bytes (the transcoder raises its
decode error) is NOT excluded from the batch result: process_emote
swallows the error, uploads the original bytes and returns a
ProcessedEmote, so the batch keeps the record. -/
theorem c6_counterexample :
    selectBest emoteAnimWebp.images =
      some ⟨"https://cdn.7tv.app/anim", "image/webp", some 4, some 2⟩ ∧
    resize_and_pad_webp_bytes decodeFailEnv [9, 9] none = none ∧
    process_emotes_batch decodeFailEnv [emoteAnimWebp] "emote_api" =
      [⟨"Spin.webp", "https://blobstore.example/emote_api/Spin.webp", "id9",
        "Spin", "", true, 4, "image/webp"⟩] := by
  decide

/-- C6 amended: when the selected variant is an animated webp whose
downloaded bytes fail to decode, process_emote catches the transcoder
error, keeps the original downloaded bytes, uploads them unmodified
and still returns a ProcessedEmote for the record (other records are
unaffected, as process_emotes_batch is the per-record filterMap). -/
theorem c6_decode_error_fallback {C : Type} (env : SevenTvEnv C) (emote : EmoteRecord)
    (folder : String) (best : ImageVariant) (content : List Nat) (u : String)
    (hsel : selectBest emote.images = some best)
    (hmime : best.mime = "image/webp")
    (hanim : best.frameCount.getD 1 > 1)
    (hfetch : env.fetch best.url = some (200, content))
    (hdec : resize_and_pad_webp_bytes env content none = none)
    (hup : env.upload content
      (folder ++ "/" ++ (sanitizeName env.isAlnum (emote.defaultName.getD "emote") ++
        extFor best.mime)) best.mime = some u)
    (hu : u ≠ "") :
    process_emote env emote folder = some
      { fileName := sanitizeName env.isAlnum (emote.defaultName.getD "emote") ++
          extFor best.mime
        url := u
        emoteId := emote.id
        emoteName := emote.defaultName.getD ""
        owner := emote.owner.getD ""
        animated := true
        scale := best.scale.getD 1
        mime := best.mime } := by
  unfold process_emote
  rw [hsel]
  dsimp only
  rw [hfetch]
  dsimp only
  rw [if_neg (by decide : ¬ (200 : Nat) ≠ 200)]
  rw [if_pos (by simp [hmime, hanim] : (best.mime == "image/webp" &&
    decide (best.frameCount.getD 1 > 1)) = true)]
  rw [hdec]
  dsimp only
  rw [hup]
  dsimp only
  rw [if_neg hu]
  simp [hanim]

/-- Witness for c6_decode_error_fallback at the concrete decode-failure
environment: the Spin record is still ingested. -/
theorem c6_decode_error_fallback_witness :
    process_emote decodeFailEnv emoteAnimWebp "emote_api" = some
      { fileName := sanitizeName decodeFailEnv.isAlnum
          (emoteAnimWebp.defaultName.getD "emote") ++
          extFor (ImageVariant.mk "https://cdn.7tv.app/anim" "image/webp"
            (some 4) (some 2)).mime
        url := "https://blobstore.example/emote_api/Spin.webp"
        emoteId := emoteAnimWebp.id
        emoteName := emoteAnimWebp.defaultName.getD ""
        owner := emoteAnimWebp.owner.getD ""
        animated := true
        scale := (ImageVariant.mk "https://cdn.7tv.app/anim" "image/webp"
          (some 4) (some 2)).scale.getD 1
        mime := (ImageVariant.mk "https://cdn.7tv.app/anim" "image/webp"
          (some 4) (some 2)).mime } :=
  c6_decode_error_fallback decodeFailEnv emoteAnimWebp "emote_api"
    (ImageVariant.mk "https://cdn.7tv.app/anim" "image/webp" (some 4) (some 2))
    [9, 9] "https://blobstore.example/emote_api/Spin.webp"
    (by decide) rfl (by decide) (by decide) rfl (by decide) (by decide)

/-- C4: upload_to_azure_blob behaves as put-if-absent: on an available
store with the name absent, the first call writes the blob and returns
its URL, and a second call with the same name and different bytes
performs no further write, does not fail, and returns the same URL;
the store after the two calls holds exactly the one write. -/
theorem c4_upload_put_if_absent (env : AzureEnv) (st : AzureState) (d1 d2 : List Nat)
    (ct1 ct2 : Option String) (name : String)
    (hav : st.available = true) (habs : st.blobs.lookup name = none) :
    (upload_to_azure_blob env st d1 name ct1).1 = some (env.urlOf name) ∧
    (upload_to_azure_blob env st d1 name ct1).2.blobs = (name, (d1, ct1)) :: st.blobs ∧
    (upload_to_azure_blob env (upload_to_azure_blob env st d1 name ct1).2 d2 name ct2).1 =
      (upload_to_azure_blob env st d1 name ct1).1 ∧
    (upload_to_azure_blob env (upload_to_azure_blob env st d1 name ct1).2 d2 name ct2).2 =
      (upload_to_azure_blob env st d1 name ct1).2 := by
  have h1 : upload_to_azure_blob env st d1 name ct1 =
      (some (env.urlOf name), ⟨st.available, (name, (d1, ct1)) :: st.blobs⟩) := by
    unfold upload_to_azure_blob
    rw [if_neg (by simp [hav]), habs]
    rfl
  have h2 : upload_to_azure_blob env ⟨st.available, (name, (d1, ct1)) :: st.blobs⟩
      d2 name ct2 =
      (some (env.urlOf name), ⟨st.available, (name, (d1, ct1)) :: st.blobs⟩) := by
    unfold upload_to_azure_blob
    rw [if_neg (by simp [hav])]
    simp [List.lookup]
  simp [h1, h2]

/-- Witness for c4_upload_put_if_absent on an available empty store. -/
theorem c4_upload_put_if_absent_witness :
    (upload_to_azure_blob azureUrlEnv ⟨true, []⟩ [1] "emote_api/Pog.webp"
        (some "image/webp")).1 =
      some (azureUrlEnv.urlOf "emote_api/Pog.webp") ∧
    (upload_to_azure_blob azureUrlEnv ⟨true, []⟩ [1] "emote_api/Pog.webp"
        (some "image/webp")).2.blobs =
      ("emote_api/Pog.webp", ([1], some "image/webp")) :: ([] : List (String × (List Nat × Option String))) ∧
    (upload_to_azure_blob azureUrlEnv
        (upload_to_azure_blob azureUrlEnv ⟨true, []⟩ [1] "emote_api/Pog.webp"
          (some "image/webp")).2 [2] "emote_api/Pog.webp" (some "image/webp")).1 =
      (upload_to_azure_blob azureUrlEnv ⟨true, []⟩ [1] "emote_api/Pog.webp"
        (some "image/webp")).1 ∧
    (upload_to_azure_blob azureUrlEnv
        (upload_to_azure_blob azureUrlEnv ⟨true, []⟩ [1] "emote_api/Pog.webp"
          (some "image/webp")).2 [2] "emote_api/Pog.webp" (some "image/webp")).2 =
      (upload_to_azure_blob azureUrlEnv ⟨true, []⟩ [1] "emote_api/Pog.webp"
        (some "image/webp")).2 :=
  c4_upload_put_if_absent azureUrlEnv ⟨true, []⟩ [1] [2] (some "image/webp")
    (some "image/webp") "emote_api/Pog.webp" rfl rfl

/-- C7 counterexample: with the backing store unavailable the
operations do NOT signal an error; the upload returns the ordinary
None, the prefix listing returns an ordinary empty list even though a
matching blob sits in the backing container, and the existence check
returns None. -/
theorem c7_counterexample :
    (upload_to_azure_blob azureUrlEnv unavailableState [1] "emote_api/b.webp"
      (some "image/webp")).1 = none ∧
    list_blobs_with_prefix unavailableState "emote_api/" = [] ∧
    get_blob_url_if_exists azureUrlEnv unavailableState "emote_api/a.webp" = none := by
  exact ⟨rfl, rfl, rfl⟩

/-- C7 amended: when the backing store is unavailable every operation
degrades silently to an ordinary non-error value: upload returns None
and leaves the store untouched, the prefix listing returns the empty
list, and the existence check returns None. -/
theorem c7_unavailable_silent_degrade (env : AzureEnv) (st : AzureState)
    (d : List Nat) (n p : String) (ct : Option String) (h : st.available = false) :
    (upload_to_azure_blob env st d n ct).1 = none ∧
    (upload_to_azure_blob env st d n ct).2 = st ∧
    list_blobs_with_prefix st p = [] ∧
    get_blob_url_if_exists env st n = none := by
  unfold upload_to_azure_blob list_blobs_with_prefix get_blob_url_if_exists
  simp [h]

/-- Witness for c7_unavailable_silent_degrade at the concrete
unavailable state. -/
theorem c7_unavailable_silent_degrade_witness :
    (upload_to_azure_blob azureUrlEnv unavailableState [1] "emote_api/c.webp" none).1 =
      none ∧
    (upload_to_azure_blob azureUrlEnv unavailableState [1] "emote_api/c.webp" none).2 =
      unavailableState ∧
    list_blobs_with_prefix unavailableState "trending_emotes/" = [] ∧
    get_blob_url_if_exists azureUrlEnv unavailableState "emote_api/c.webp" = none :=
  c7_unavailable_silent_degrade azureUrlEnv unavailableState [1] "emote_api/c.webp"
    "trending_emotes/" none rfl

theorem decodeDigits_append (l : List Char) (c : Char) :
    decodeDigits (l ++ [c]) = 10 * decodeDigits l + (c.toNat - 48) := by
  unfold decodeDigits
  rw [List.foldl_append]
  rfl

theorem digitChar_toNat (d : Nat) (h : d < 10) : (digitChar d).toNat = 48 + d := by
  interval_cases d <;> rfl

theorem decode_natCharsAux (fuel n : Nat) (h : n < fuel) :
    decodeDigits (natCharsAux fuel n) = n := by
  induction fuel generalizing n with
  | zero => omega
  | succ f ih =>
    unfold natCharsAux
    by_cases hn : n < 10
    · rw [if_pos hn]
      show decodeDigits [digitChar n] = n
      unfold decodeDigits
      simp [List.foldl_cons, digitChar_toNat n hn]
    · rw [if_neg hn, decodeDigits_append]
      have hd : n / 10 < f := by
        have h1 : n / 10 < n := Nat.div_lt_self (by omega) (by omega)
        omega
      rw [ih (n / 10) hd, digitChar_toNat (n % 10) (Nat.mod_lt _ (by omega))]
      omega

theorem pyStr_inj (m n : Nat) (h : pyStr m = pyStr n) : m = n := by
  have hm : decodeDigits (pyStr m).data = m := decode_natCharsAux (m + 1) m (by omega)
  have hn : decodeDigits (pyStr n).data = n := decode_natCharsAux (n + 1) n (by omega)
  rw [← hm, ← hn, h]

theorem string_append_cancel_right (a b t : String) (h : a ++ t = b ++ t) : a = b := by
  have hd : a.data ++ t.data = b.data ++ t.data := by
    have := congrArg String.data h
    rwa [String.data_append, String.data_append] at this
  have hlen : a.data.length = b.data.length := by
    have := congrArg List.length hd
    simp only [List.length_append] at this
    omega
  exact String.ext (List.append_inj hd hlen).1

theorem string_append_cancel_left (t a b : String) (h : t ++ a = t ++ b) : a = b := by
  have hd : t.data ++ a.data = t.data ++ b.data := by
    have := congrArg String.data h
    rwa [String.data_append, String.data_append] at this
  exact String.ext (List.append_inj hd rfl).2

/-- C5: the cache key is a deterministic function of the request
parameters; search keys built from the same query, limit, animated
flag and page coincide, search keys for the same request differing
only in page always differ, and trending keys additionally separate
distinct trending periods (and pages). -/
theorem c5_cache_key_fingerprint :
    (∀ q1 l1 a1 p1 q2 l2 a2 p2, q1 = q2 → l1 = l2 → a1 = a2 → p1 = p2 →
      get_cache_key q1 l1 a1 p1 = get_cache_key q2 l2 a2 p2) ∧
    (∀ q l a p1 p2, p1 ≠ p2 → get_cache_key q l a p1 ≠ get_cache_key q l a p2) ∧
    (∀ s1 s2 l a p, s1 ≠ s2 →
      get_trending_cache_key s1 l a p ≠ get_trending_cache_key s2 l a p) ∧
    (∀ s l a p1 p2, p1 ≠ p2 →
      get_trending_cache_key s l a p1 ≠ get_trending_cache_key s l a p2) := by
  refine ⟨?_, ?_, ?_, ?_⟩
  · intro q1 l1 a1 p1 q2 l2 a2 p2 hq hl ha hp
    subst hq
    subst hl
    subst ha
    subst hp
    rfl
  · intro q l a p1 p2 hne h
    unfold get_cache_key at h
    exact hne (pyStr_inj p1 p2 (string_append_cancel_left _ _ _ h))
  · intro s1 s2 l a p hne h
    unfold get_trending_cache_key at h
    have h1 := string_append_cancel_right _ _ _ h
    have h2 := string_append_cancel_right _ _ _ h1
    have h3 := string_append_cancel_right _ _ _ h2
    have h4 := string_append_cancel_right _ _ _ h3
    have h5 := string_append_cancel_right _ _ _ h4
    have h6 := string_append_cancel_right _ _ _ h5
    exact hne (string_append_cancel_left _ _ _ h6)
  · intro s l a p1 p2 hne h
    unfold get_trending_cache_key at h
    exact hne (pyStr_inj p1 p2 (string_append_cancel_left _ _ _ h))

/-- Witness for c5_cache_key_fingerprint: pages 1 and 2 of the same
search get different keys, and distinct trending periods get
different keys. -/
theorem c5_cache_key_fingerprint_witness :
    get_cache_key "pog" 50 true 1 ≠ get_cache_key "pog" 50 true 2 ∧
    get_trending_cache_key "trending_daily" 20 false 1 ≠
      get_trending_cache_key "trending_weekly" 20 false 1 :=
  ⟨c5_cache_key_fingerprint.2.1 "pog" 50 true 1 2 (by decide),
    c5_cache_key_fingerprint.2.2.1 "trending_daily" "trending_weekly" 20 false 1
      (by decide)⟩

theorem storage_listing_page_valid (env : RouteEnv) (st : AzureState)
    (pre emptyMsg : String) (page limit : Nat) (hav : st.available = true)
    (hne : sortedListing st pre ≠ [])
    (hlt : (page - 1) * limit < (sortedListing st pre).length) :
    storage_listing_page env st pre emptyMsg page limit =
      ⟨true, (sortedListing st pre).length,
        (((sortedListing st pre).drop ((page - 1) * limit)).take
          (min ((page - 1) * limit + limit) (sortedListing st pre).length -
            (page - 1) * limit)).filterMap (blobEntry env pre),
        none, page, ((sortedListing st pre).length + limit - 1) / limit, limit,
        decide (page < ((sortedListing st pre).length + limit - 1) / limit)⟩ := by
  have hne' : (sortedListing st pre).isEmpty = false := by
    cases hcase : sortedListing st pre with
    | nil => exact absurd hcase hne
    | cons a t => rfl
  have hge : ¬ ((sortedListing st pre).length ≤ (page - 1) * limit) := Nat.not_le.mpr hlt
  unfold storage_listing_page
  rw [if_neg (by simp [hav])]
  simp only [hne', Bool.false_eq_true, if_false, hge, ite_false]

/-- C9: on a non-empty sorted listing with a valid page, the storage
pagination slices by start index (page-1)*limit and end index
min(start+limit, total), computes totalPages as the ceiling of
total/limit (characterized by the two product bounds) and hasNextPage
as page < totalPages; on the concrete 45-item listing with page 2 and
limit 20 it returns items 21 through 40, totalPages 3 and
hasNextPage true. -/
theorem c9_storage_pagination (env : RouteEnv) (st : AzureState) (page limit : Nat)
    (hav : st.available = true)
    (hne : sortedListing st "emote_api/" ≠ [])
    (hlt : (page - 1) * limit < (sortedListing st "emote_api/").length)
    (hlim : 1 ≤ limit) :
    (get_emotes_from_storage env st page limit).totalFound =
      (sortedListing st "emote_api/").length ∧
    (get_emotes_from_storage env st page limit).emotes =
      (((sortedListing st "emote_api/").drop ((page - 1) * limit)).take
        (min ((page - 1) * limit + limit) (sortedListing st "emote_api/").length -
          (page - 1) * limit)).filterMap (blobEntry env "emote_api/") ∧
    (get_emotes_from_storage env st page limit).totalPages =
      ((sortedListing st "emote_api/").length + limit - 1) / limit ∧
    (sortedListing st "emote_api/").length ≤
      (get_emotes_from_storage env st page limit).totalPages * limit ∧
    ((get_emotes_from_storage env st page limit).totalPages - 1) * limit <
      (sortedListing st "emote_api/").length ∧
    (get_emotes_from_storage env st page limit).hasNextPage =
      decide (page < (get_emotes_from_storage env st page limit).totalPages) ∧
    (get_emotes_from_storage routeEnv st45 2 20).totalFound = 45 ∧
    (get_emotes_from_storage routeEnv st45 2 20).totalPages = 3 ∧
    (get_emotes_from_storage routeEnv st45 2 20).hasNextPage = true ∧
    (get_emotes_from_storage routeEnv st45 2 20).emotes.map (fun e => e.fileName) =
      (List.range 20).map (fun k => "e" ++ pad2 (k + 21) ++ ".webp") := by
  have heq : get_emotes_from_storage env st page limit =
      ⟨true, (sortedListing st "emote_api/").length,
        (((sortedListing st "emote_api/").drop ((page - 1) * limit)).take
          (min ((page - 1) * limit + limit) (sortedListing st "emote_api/").length -
            (page - 1) * limit)).filterMap (blobEntry env "emote_api/"),
        none, page, ((sortedListing st "emote_api/").length + limit - 1) / limit, limit,
        decide (page <
          ((sortedListing st "emote_api/").length + limit - 1) / limit)⟩ := by
    unfold get_emotes_from_storage
    exact storage_listing_page_valid env st "emote_api/" "No emotes found in storage"
      page limit hav hne hlt
  have hL1 : 1 ≤ (sortedListing st "emote_api/").length := List.length_pos.mpr hne
  have hceilup : (sortedListing st "emote_api/").length ≤
      (((sortedListing st "emote_api/").length + limit - 1) / limit) * limit := by
    have h2 : (sortedListing st "emote_api/").length + limit - 1 <
        ((((sortedListing st "emote_api/").length + limit - 1) / limit) + 1) * limit :=
      (Nat.div_lt_iff_lt_mul (by omega)).mp (Nat.lt_succ_of_le (Nat.le_refl _))
    rw [Nat.succ_mul] at h2
    generalize (((sortedListing st "emote_api/").length + limit - 1) / limit) * limit =
      A at h2 ⊢
    omega
  have hceildown :
      ((((sortedListing st "emote_api/").length + limit - 1) / limit) - 1) * limit <
        (sortedListing st "emote_api/").length := by
    have h4 : (((sortedListing st "emote_api/").length + limit - 1) / limit) * limit ≤
        (sortedListing st "emote_api/").length + limit - 1 := Nat.div_mul_le_self _ _
    cases htp : ((sortedListing st "emote_api/").length + limit - 1) / limit with
    | zero => simpa using hL1
    | succ t =>
      rw [htp, Nat.succ_mul] at h4
      rw [Nat.succ_sub_one]
      generalize t * limit = B at h4 ⊢
      omega
  rw [heq]
  exact ⟨rfl, rfl, rfl, hceilup, hceildown, rfl, by decide, by decide, by decide,
    by decide⟩

/-- Witness for c9_storage_pagination at the 45-item fixture, page 2
and limit 20. -/
theorem c9_storage_pagination_witness :
    (get_emotes_from_storage routeEnv st45 2 20).totalFound =
      (sortedListing st45 "emote_api/").length ∧
    (get_emotes_from_storage routeEnv st45 2 20).totalPages = 3 := by
  have h := c9_storage_pagination routeEnv st45 2 20 rfl (by decide) (by decide)
    (by decide)
  exact ⟨h.1, h.2.2.2.2.2.2.2.1⟩

/-- C10: the placeholder filter of the storage listing endpoints runs
after the pagination slice while totalFound, totalPages and
hasNextPage come from the unfiltered listing, so a page can hold
fewer than resultsPerPage entries while hasNextPage is true, and the
filtered-out placeholder still counts toward totalFound; exhibited on
both the emote_api and the trending_emotes endpoint. -/
theorem c10_filter_after_slice (env : RouteEnv) (st : AzureState)
    (pre emptyMsg : String) (page limit : Nat) (hav : st.available = true)
    (hne : sortedListing st pre ≠ [])
    (hlt : (page - 1) * limit < (sortedListing st pre).length) :
    (storage_listing_page env st pre emptyMsg page limit).totalFound =
      (sortedListing st pre).length ∧
    (storage_listing_page env st pre emptyMsg page limit).totalPages =
      ((sortedListing st pre).length + limit - 1) / limit ∧
    (storage_listing_page env st pre emptyMsg page limit).hasNextPage =
      decide (page < ((sortedListing st pre).length + limit - 1) / limit) ∧
    (storage_listing_page env st pre emptyMsg page limit).emotes =
      (((sortedListing st pre).drop ((page - 1) * limit)).take
        (min ((page - 1) * limit + limit) (sortedListing st pre).length -
          (page - 1) * limit)).filterMap (blobEntry env pre) ∧
    (get_emotes_from_storage routeEnv stPlaceholder 1 2).totalFound = 3 ∧
    (get_emotes_from_storage routeEnv stPlaceholder 1 2).resultsPerPage = 2 ∧
    (get_emotes_from_storage routeEnv stPlaceholder 1 2).emotes.length = 1 ∧
    (get_emotes_from_storage routeEnv stPlaceholder 1 2).hasNextPage = true ∧
    (get_trending_emotes_from_storage routeEnv stPlaceholderTrending 1 2).emotes.length
      = 1 ∧
    (get_trending_emotes_from_storage routeEnv stPlaceholderTrending 1 2).hasNextPage
      = true := by
  rw [storage_listing_page_valid env st pre emptyMsg page limit hav hne hlt]
  exact ⟨rfl, rfl, rfl, rfl, by decide, by decide, by decide, by decide, by decide,
    by decide⟩

/-- Witness for c10_filter_after_slice at the placeholder fixture. -/
theorem c10_filter_after_slice_witness :
    (storage_listing_page routeEnv stPlaceholder "emote_api/" "No emotes found in storage"
      1 2).totalFound = (sortedListing stPlaceholder "emote_api/").length ∧
    (get_emotes_from_storage routeEnv stPlaceholder 1 2).emotes.length = 1 := by
  have h := c10_filter_after_slice routeEnv stPlaceholder "emote_api/"
    "No emotes found in storage" 1 2 rfl (by decide) (by decide)
  exact ⟨h.1, h.2.2.2.2.2.2.1⟩

/-- Witness for c2_batch_partial_failure on the concrete three-record
batch: the batch equals the filterMap, its length counts the
successes, and the first returned entry is traced back to a member of
the batch. -/
theorem c2_batch_partial_failure_witness :
    process_emotes_batch batchEnv [emoteFail, emoteOk1, emoteOk2] "emote_api" =
      [emoteFail, emoteOk1, emoteOk2].filterMap
        (fun e => process_emote batchEnv e "emote_api") ∧
    (process_emotes_batch batchEnv [emoteFail, emoteOk1, emoteOk2] "emote_api").length =
      ([emoteFail, emoteOk1, emoteOk2].map
        (fun e => process_emote batchEnv e "emote_api")).countP Option.isSome ∧
    (∃ e ∈ [emoteFail, emoteOk1, emoteOk2],
      process_emote batchEnv e "emote_api" = some
        ⟨"GoodOne.png", "https://blobstore.example/emote_api/GoodOne.png", "id1",
          "GoodOne", "alice", false, 4, "image/png"⟩) := by
  have h := c2_batch_partial_failure batchEnv [emoteFail, emoteOk1, emoteOk2] "emote_api"
  refine ⟨h.1, h.2.2.1, ?_⟩
  apply h.2.1
  rw [h.2.2.2.2]
  decide
